import Mathlib

/-!
Verification of the `scaling` toolkit: a shallow embedding in Lean 4 of the
two fitting modules `scaling/powerlaw/powerlaw.py` and `scaling/NPL/Murari.py`,
together with theorems settling the specification claims.

Modelling conventions:
* Python floats are modelled as real numbers (`ℝ`); `np.log10` is
  `Real.logb 10`, `np.exp` is `Real.exp`, and the float power `x ** y` is the
  real power `x ^ y` (`Real.rpow`).
* Parameter vectors and data vectors are `List ℝ`; in the variable-arity
  power-law module a tuple of per-variable sample vectors is `List (List ℝ)`.
  numpy broadcasting of an arithmetic operation over equal-length sample
  vectors is modelled elementwise (per sample index).
* A Python `ValueError` raised by the arity validation is `Except.error`;
  a normal return is `Except.ok`.  The `is not` comparison the source uses on
  the two integer lengths is modelled as integer inequality `≠` over `ℤ`
  (Python integers of equal value; the subtraction `len(param)-1` is over `ℤ`
  so that an empty parameter list gives `-1`, not a truncated `0`).
* The external Levenberg-Marquardt solver `scipy.optimize.leastsq` is outside
  the repository; each `fit_model` is therefore parameterised by the solver
  output it consumes (`LeastsqOut`: optimal parameters `p1`, optional
  covariance `cov` — `None` becomes `Option.none` — and the final residual
  vector `fvec` from `infodict`).  Everything `fit_model` computes after the
  solver call is embedded faithfully.
* The bare `try ... except` around `cov_wt[i][i]` is modelled by optional
  indexing (`List.get?`) with the `0.0` fallback on failure.
-/

noncomputable section

namespace scaling

/-- numpy `values.mean()`: arithmetic mean of a sample vector. -/
def mean (xs : List ℝ) : ℝ := xs.sum / xs.length

/-- numpy `(v**2).sum()`: sum of squares of a vector. -/
def ssq (v : List ℝ) : ℝ := (v.map fun r => r ^ 2).sum

/-- Output of the external `scipy.optimize.leastsq` call with
`full_output=True`, restricted to the fields the fitters use: the optimal
parameter vector `p1`, the covariance matrix `cov` (`none` models Python
`None`, returned for an underdetermined or singular Jacobian), and the final
residual vector fvec from the infodict dictionary). -/
structure LeastsqOut where
  p1 : List ℝ
  cov : Option (List (List ℝ))
  fvec : List ℝ

/-- The result tuple `(p1, errors, r2, cov)` returned by both `fit_model`s. -/
structure FitResult where
  p1 : List ℝ
  errors : List ℝ
  r2 : ℝ
  cov : List (List ℝ)

/-- numpy `np.zeros((n,n))`. -/
def zeroMatrix (n : Nat) : List (List ℝ) := List.replicate n (List.replicate n 0)

/-- Entry `m[i][i]` as an optional value: `none` models the `IndexError` path of the
bare except clause of the source. -/
def matEntry (m : List (List ℝ)) (i : Nat) : Option ℝ :=
  (m.get? i).bind fun row => row.get? i

/-- The `errors` loop shared by both `fit_model`s: for each parameter index,
`np.absolute(cov_wt[i][i])**0.5`, with `0.0` substituted when the indexing
fails (the try/except fallback of the source). -/
def errorsOf (covWt : List (List ℝ)) (nparams : Nat) : List ℝ :=
  (List.range nparams).map fun i =>
    match matEntry covWt i with
    | some x => |x| ^ (0.5 : ℝ)
    | none => 0

/-- Python `((np.log10(values) - np.log10(values.mean()))**2).sum()`: the log-space
total sum of squares both `fit_model`s use. -/
def ssTot (values : List ℝ) : ℝ :=
  ssq (values.map fun v => Real.logb 10 v - Real.logb 10 (mean values))

/-- The `ValueError` message of the arity validation. -/
def arityError : String := "number of input arguments does not match parameter count."

namespace powerlaw

/-- The accumulation loop of `logmodel`: `Σ param[i+1] * log10(args[i])`,
recursing along the exponent list (`param[1:]`) and the argument list in
lockstep (the validated call has them equally long). -/
def logterms : List ℝ → List ℝ → ℝ
  | a :: as, x :: xs => a * Real.logb 10 x + logterms as xs
  | _, _ => 0

/-- The numeric core of `logmodel`:
`log10(param[0]) + Σ param[i+1] * log10(args[i])`. -/
def logmodelVal (param args : List ℝ) : ℝ :=
  Real.logb 10 (param.getD 0 0) + logterms (param.drop 1) args

/-- Python `logmodel(param, *args)`: arity validation, then the log-linear model. -/
def logmodel (param args : List ℝ) : Except String ℝ :=
  if (args.length : ℤ) ≠ (param.length : ℤ) - 1 then Except.error arityError
  else Except.ok (logmodelVal param args)

/-- The accumulation loop of `linmodel`: `Π args[i] ** param[i+1]` (the source
multiplies left to right starting from `param[0]`; real multiplication is
associative and commutative, so the right fold is the same product). -/
def linterms : List ℝ → List ℝ → ℝ
  | a :: as, x :: xs => x ^ a * linterms as xs
  | _, _ => 1

/-- The numeric core of `linmodel`: `param[0] * Π args[i] ** param[i+1]`. -/
def linmodelVal (param args : List ℝ) : ℝ :=
  param.getD 0 0 * linterms (param.drop 1) args

/-- Python `linmodel(param, *args)`: arity validation, then the product-form model. -/
def linmodel (param args : List ℝ) : Except String ℝ :=
  if (args.length : ℤ) ≠ (param.length : ℤ) - 1 then Except.error arityError
  else Except.ok (linmodelVal param args)

/-- The residual vector `np.log10(ydata) - logmodel(param, *xs)` computed
elementwise over the sample index (numpy broadcasting over the equal-length
sample vectors `xs` and `ydata`). -/
def errfunctVal (param : List ℝ) (xs : List (List ℝ)) (ydata : List ℝ) : List ℝ :=
  (List.range ydata.length).map fun j =>
    Real.logb 10 (ydata.getD j 0) - logmodelVal param (xs.map fun col => col.getD j 0)

/-- Python `errfunct(param, *args)`: arity validation (`len(args) == len(param)`),
then the last argument is split off as `ydata` (`args[-1]` / `args[:-1]`) and
the log-space residual vector is returned. -/
def errfunct (param : List ℝ) (args : List (List ℝ)) : Except String (List ℝ) :=
  if (args.length : ℤ) ≠ (param.length : ℤ) then Except.error arityError
  else Except.ok (errfunctVal param args.dropLast (args.getLastD []))

/-- Python `fit_model(values, guesses, *args)` given the output `ls` of the external
`leastsq` call it performs: arity validation, then R², the zero-matrix
covariance fallback, and the per-parameter errors from the covariance scaled
by the reduced residual variance `ss_err / (len(args[0]) - nguesses)`. -/
def fit_model (ls : LeastsqOut) (values guesses : List ℝ) (args : List (List ℝ)) :
    Except String FitResult :=
  if (args.length : ℤ) ≠ (guesses.length : ℤ) - 1 then Except.error arityError
  else
    let ssErr := ssq ls.fvec
    let r2 := 1 - ssErr / ssTot values
    let cov := ls.cov.getD (zeroMatrix ls.p1.length)
    let ssErrWt := ssErr / (((args.headD []).length : ℝ) - (guesses.length : ℝ))
    let covWt := cov.map (List.map fun c => c * ssErrWt)
    Except.ok ⟨ls.p1, errorsOf covWt ls.p1.length, r2, cov⟩

end powerlaw

namespace Murari

/-- Python `hfactor(hparams, n, B)`: the saturation term
`n**hparams[0] * (1. + np.exp(hparams[1] * (n/B)**hparams[2]))**-1.`
(per sample; numpy applies it elementwise over array-like `n` and `B`). -/
def hfactor (hparams : List ℝ) (n B : ℝ) : ℝ :=
  n ^ hparams.getD 0 0 *
    (1 + Real.exp (hparams.getD 1 0 * (n / B) ^ hparams.getD 2 0)) ^ (-1 : ℝ)

/-- numpy broadcast of `hfactor` over equal-length sample vectors of densities
and fields: the scalar term applied elementwise. -/
def hfactorVec (hparams : List ℝ) (ns Bs : List ℝ) : List ℝ :=
  List.zipWith (fun n B => hfactor hparams n B) ns Bs

/-- Python `NPL(params, Ip, R, kappa, P, n, B)`:
`params[0] * Ip**params[1] * R**params[2] * kappa**params[3] * P**params[4] * hfactor(params[5:], n, B)`
(per sample). -/
def NPL (params : List ℝ) (Ip R kappa P n B : ℝ) : ℝ :=
  params.getD 0 0 * Ip ^ params.getD 1 0 * R ^ params.getD 2 0 *
    kappa ^ params.getD 3 0 * P ^ params.getD 4 0 * hfactor (params.drop 5) n B

/-- Python `errfunct(params, Ip, R, kappa, P, n, B, tau)`: the linear-space residual
`tau - NPL(params, Ip, R, kappa, P, n, B)` (per sample). -/
def errfunct (params : List ℝ) (Ip R kappa P n B tau : ℝ) : ℝ :=
  tau - NPL params Ip R kappa P n B

/-- Python `fit_model(guesses, Ip, R, kappa, P, n, B, values)` given the output `ls`
of the external `leastsq` call it performs: R² with log-space total sum of
squares, the zero-matrix covariance fallback, and per-parameter errors from
the covariance scaled by `ss_err / (len(values) - len(guesses))`.  The six
physical-variable sample vectors only feed the solver, which is external. -/
def fit_model (ls : LeastsqOut) (guesses Ip R kappa P n B values : List ℝ) :
    FitResult :=
  let ssErr := ssq ls.fvec
  let r2 := 1 - ssErr / ssTot values
  let cov := ls.cov.getD (zeroMatrix ls.p1.length)
  let ssErrWt := ssErr / ((values.length : ℝ) - (guesses.length : ℝ))
  let covWt := cov.map (List.map fun c => c * ssErrWt)
  ⟨ls.p1, errorsOf covWt ls.p1.length, r2, cov⟩

end Murari

end scaling

section Claims

open scaling

/-- Core of C1: over the reals, `10` raised to the log-space sum equals the
linear-space product, for positive bases. -/
theorem ten_rpow_logterms (as xs : List ℝ) (hx : ∀ x ∈ xs, 0 < x) :
    (10 : ℝ) ^ powerlaw.logterms as xs = powerlaw.linterms as xs := by
  induction as generalizing xs with
  | nil => cases xs <;> simp [powerlaw.logterms, powerlaw.linterms]
  | cons a as ih =>
    cases xs with
    | nil => simp [powerlaw.logterms, powerlaw.linterms]
    | cons x xs =>
      have hx0 : 0 < x := hx x (List.mem_cons_self x xs)
      have hxs : ∀ y ∈ xs, 0 < y := fun y hy => hx y (List.mem_cons_of_mem x hy)
      rw [powerlaw.logterms, powerlaw.linterms,
        Real.rpow_add (by norm_num : (0:ℝ) < 10), ih xs hxs, mul_comm a,
        Real.rpow_mul (by norm_num : (0:ℝ) ≤ 10),
        Real.rpow_logb (by norm_num) (by norm_num) hx0]

/-- C1: for a parameter list whose first entry is positive and strictly
positive inputs of matching arity, `logmodel` succeeds with the log-space
value and `linmodel` succeeds with exactly `10` raised to that value: the
linear-space product form equals `10 ** logmodel(params, *xs)` (exactly, in
the real-number model of float arithmetic). -/
theorem linmodel_eq_ten_rpow_logmodel (param args : List ℝ)
    (hp : 0 < param.getD 0 0) (hx : ∀ x ∈ args, 0 < x)
    (hlen : (args.length : ℤ) = (param.length : ℤ) - 1) :
    powerlaw.logmodel param args = Except.ok (powerlaw.logmodelVal param args) ∧
    powerlaw.linmodel param args
      = Except.ok ((10 : ℝ) ^ powerlaw.logmodelVal param args) := by
  constructor
  · rw [powerlaw.logmodel, if_neg (by rw [hlen]; exact fun h => h rfl)]
  · rw [powerlaw.linmodel, if_neg (by rw [hlen]; exact fun h => h rfl)]
    rw [powerlaw.logmodelVal, powerlaw.linmodelVal,
      Real.rpow_add (by norm_num : (0:ℝ) < 10),
      Real.rpow_logb (by norm_num) (by norm_num) hp,
      ten_rpow_logterms _ _ hx]

/-- Witness for C1 at the concrete scenario of the spec: `params = [2.0, 1.5]`,
`xs = [10.0]`. -/
theorem linmodel_eq_ten_rpow_logmodel_witness :
    powerlaw.logmodel [2, 1.5] [10] = Except.ok (powerlaw.logmodelVal [2, 1.5] [10]) ∧
    powerlaw.linmodel [2, 1.5] [10]
      = Except.ok ((10 : ℝ) ^ powerlaw.logmodelVal [2, 1.5] [10]) :=
  linmodel_eq_ten_rpow_logmodel [2, 1.5] [10]
    (by norm_num [List.getD])
    (by intro x hx; rw [List.mem_singleton] at hx; rw [hx]; norm_num)
    (by norm_num)

/-- C2: each of the four entry points raises the arity `ValueError` exactly
when the supplied variable-argument count differs from the expected arity:
`len(param) - 1` for `logmodel` and `linmodel`, `len(param)` for `errfunct`,
and `len(guesses) - 1` for `fit_model`; when the counts match, no validation
error is raised and the computation proceeds to a normal return. -/
theorem arity_validation_iff (param xs : List ℝ) (vargs : List (List ℝ))
    (ls : LeastsqOut) (values guesses : List ℝ) (fargs : List (List ℝ)) :
    ((powerlaw.logmodel param xs).isOk = false ↔
        (xs.length : ℤ) ≠ (param.length : ℤ) - 1) ∧
    ((powerlaw.linmodel param xs).isOk = false ↔
        (xs.length : ℤ) ≠ (param.length : ℤ) - 1) ∧
    ((powerlaw.errfunct param vargs).isOk = false ↔
        (vargs.length : ℤ) ≠ (param.length : ℤ)) ∧
    ((powerlaw.fit_model ls values guesses fargs).isOk = false ↔
        (fargs.length : ℤ) ≠ (guesses.length : ℤ) - 1) := by
  refine ⟨?_, ?_, ?_, ?_⟩
  · rw [powerlaw.logmodel]; split_ifs with h <;> simp [Except.isOk, Except.toBool, h]
  · rw [powerlaw.linmodel]; split_ifs with h <;> simp [Except.isOk, Except.toBool, h]
  · rw [powerlaw.errfunct]; split_ifs with h <;> simp [Except.isOk, Except.toBool, h]
  · rw [powerlaw.fit_model]; split_ifs with h <;> simp [Except.isOk, Except.toBool, h]

/-- C5: on a parameter list of length at least eight (head entries
`c, a1, ..., a7`), `NPL` is exactly the product
`c * Ip^a1 * R^a2 * kappa^a3 * P^a4 * hfactor(params[5:], n, B)` with
`hfactor([a5,a6,a7], n, B) = n^a5 * (1 + exp(a6 * (n/B)^a7))^-1`, and the
broadcast of `hfactor` over sample vectors is the scalar term applied
elementwise. -/
theorem NPL_product_form (c a1 a2 a3 a4 a5 a6 a7 : ℝ) (rest : List ℝ)
    (Ip R kappa P n B : ℝ) (ns Bs : List ℝ) :
    Murari.NPL (c :: a1 :: a2 :: a3 :: a4 :: a5 :: a6 :: a7 :: rest) Ip R kappa P n B
      = c * Ip ^ a1 * R ^ a2 * kappa ^ a3 * P ^ a4 *
        (n ^ a5 * (1 + Real.exp (a6 * (n / B) ^ a7)) ^ (-1 : ℝ)) ∧
    Murari.hfactor [a5, a6, a7] n B
      = n ^ a5 * (1 + Real.exp (a6 * (n / B) ^ a7)) ^ (-1 : ℝ) ∧
    Murari.hfactorVec [a5, a6, a7] ns Bs
      = List.zipWith
          (fun x y => x ^ a5 * (1 + Real.exp (a6 * (x / y) ^ a7)) ^ (-1 : ℝ)) ns Bs :=
  ⟨rfl, rfl, rfl⟩

/-- C7: for fixed strictly positive density `n` and field `B` and fixed shape
parameters `h0`, `h2`, the suppression term `hfactor` is strictly decreasing
in its middle parameter `hparams[1]`. -/
theorem hfactor_strictAnti_in_h1 (h0 h1 h1' h2 n B : ℝ)
    (hn : 0 < n) (hB : 0 < B) (hlt : h1 < h1') :
    Murari.hfactor [h0, h1', h2] n B < Murari.hfactor [h0, h1, h2] n B := by
  have hc : 0 < (n / B) ^ h2 := Real.rpow_pos_of_pos (div_pos hn hB) h2
  have hexp : Real.exp (h1 * (n / B) ^ h2) < Real.exp (h1' * (n / B) ^ h2) :=
    Real.exp_lt_exp.mpr (mul_lt_mul_of_pos_right hlt hc)
  have hinv : (1 + Real.exp (h1' * (n / B) ^ h2))⁻¹
      < (1 + Real.exp (h1 * (n / B) ^ h2))⁻¹ := by
    apply inv_strictAnti₀ (by positivity)
    linarith
  show n ^ h0 * (1 + Real.exp (h1' * (n / B) ^ h2)) ^ (-1 : ℝ)
      < n ^ h0 * (1 + Real.exp (h1 * (n / B) ^ h2)) ^ (-1 : ℝ)
  rw [Real.rpow_neg_one, Real.rpow_neg_one]
  exact mul_lt_mul_of_pos_left hinv (Real.rpow_pos_of_pos hn h0)

/-- Witness for C7 at `h0 = 0`, `h1 = 0 < 1 = h1'`, `h2 = 0`, `n = B = 1`. -/
theorem hfactor_strictAnti_in_h1_witness :
    Murari.hfactor [0, 1, 0] 1 1 < Murari.hfactor [0, 0, 0] 1 1 :=
  hfactor_strictAnti_in_h1 0 0 1 0 1 1 (by norm_num) (by norm_num) (by norm_num)

/-- Helper: the log-space total sum of squares, with the squaring pushed
inside the map. -/
theorem ssTot_eq_sum (values : List ℝ) :
    ssTot values
      = (values.map fun v => (Real.logb 10 v - Real.logb 10 (mean values)) ^ 2).sum := by
  rw [ssTot, ssq, List.map_map]; rfl

/-- C3: whenever the power-law `fit_model` returns, its R² is
`1 - ss_err / ss_tot` with `ss_err` the sum of squares of the final solver
residual vector and `ss_tot` the log-space sum `Σ (log10 v - log10 mean)²`;
the NPL `fit_model` computes the identical log-space R² even though its
residual function is the linear-space `tau - NPL(params, ...)`. -/
theorem r2_log_space (ls : LeastsqOut) (values guesses : List ℝ)
    (args : List (List ℝ)) (ls2 : LeastsqOut) (g2 Ip R kappa P n B v2 : List ℝ)
    (params : List ℝ) (ip r k p nn b tau : ℝ) :
    ((powerlaw.fit_model ls values guesses args).map FitResult.r2)
      = ((powerlaw.fit_model ls values guesses args).map fun _ =>
          1 - (ls.fvec.map fun t => t ^ 2).sum /
            (values.map fun v => (Real.logb 10 v - Real.logb 10 (mean values)) ^ 2).sum) ∧
    (Murari.fit_model ls2 g2 Ip R kappa P n B v2).r2
      = 1 - (ls2.fvec.map fun t => t ^ 2).sum /
          (v2.map fun v => (Real.logb 10 v - Real.logb 10 (mean v2)) ^ 2).sum ∧
    Murari.errfunct params ip r k p nn b tau
      = tau - Murari.NPL params ip r k p nn b := by
  refine ⟨?_, ?_, rfl⟩
  · rw [powerlaw.fit_model]
    split_ifs with h
    · rfl
    · simp only [Except.map, ssTot_eq_sum]
      rfl
  · show 1 - ssq ls2.fvec / ssTot v2 = _
    rw [ssTot_eq_sum, ssq]

/-- C10: the covariance matrix in the returned tuple is the raw solver
covariance (with the zero-matrix fallback when the solver returned none), not
the matrix scaled by the reduced residual variance: the scaled matrix only
feeds the error vector. -/
theorem returned_cov_unscaled (ls : LeastsqOut) (values guesses : List ℝ)
    (args : List (List ℝ)) (ls2 : LeastsqOut) (g2 Ip R kappa P n B v2 : List ℝ) :
    ((powerlaw.fit_model ls values guesses args).map FitResult.cov)
      = ((powerlaw.fit_model ls values guesses args).map fun _ =>
          ls.cov.getD (List.replicate ls.p1.length (List.replicate ls.p1.length 0))) ∧
    (Murari.fit_model ls2 g2 Ip R kappa P n B v2).cov
      = ls2.cov.getD (List.replicate ls2.p1.length (List.replicate ls2.p1.length 0)) := by
  constructor
  · rw [powerlaw.fit_model]
    split_ifs with h <;> rfl
  · rfl

/-- C8: when the solver reports no covariance matrix (`None`), both
`fit_model`s substitute the `len(p1) × len(p1)` zero matrix, return it in the
result tuple, and still return a complete result rather than failing. -/
theorem cov_none_zero_fallback (ls : LeastsqOut) (values guesses : List ℝ)
    (args : List (List ℝ)) (ls2 : LeastsqOut) (g2 Ip R kappa P n B v2 : List ℝ)
    (hcov : ls.cov = none) (hlen : (args.length : ℤ) = (guesses.length : ℤ) - 1)
    (hcov2 : ls2.cov = none) :
    (∃ res : FitResult, powerlaw.fit_model ls values guesses args = Except.ok res ∧
      res.cov = List.replicate ls.p1.length (List.replicate ls.p1.length 0) ∧
      res.p1 = ls.p1 ∧ res.errors.length = ls.p1.length) ∧
    (Murari.fit_model ls2 g2 Ip R kappa P n B v2).cov
      = List.replicate ls2.p1.length (List.replicate ls2.p1.length 0) := by
  constructor
  · rw [powerlaw.fit_model, if_neg (fun hne => hne hlen)]
    refine ⟨_, rfl, ?_, rfl, ?_⟩
    · show ls.cov.getD (zeroMatrix ls.p1.length) = _
      rw [hcov]; rfl
    · show (errorsOf _ ls.p1.length).length = ls.p1.length
      rw [errorsOf, List.length_map, List.length_range]
  · show ls2.cov.getD (zeroMatrix ls2.p1.length) = _
    rw [hcov2]; rfl

/-- Witness for C8: one parameter, a solver output with `cov = None`. -/
theorem cov_none_zero_fallback_witness :
    (∃ res : FitResult,
      powerlaw.fit_model ⟨[1], none, [3]⟩ [1] [1] [] = Except.ok res ∧
      res.cov = List.replicate (⟨[1], none, [3]⟩ : LeastsqOut).p1.length
          (List.replicate (⟨[1], none, [3]⟩ : LeastsqOut).p1.length 0) ∧
      res.p1 = (⟨[1], none, [3]⟩ : LeastsqOut).p1 ∧
      res.errors.length = (⟨[1], none, [3]⟩ : LeastsqOut).p1.length) ∧
    (Murari.fit_model ⟨[1], none, [3]⟩ [1] [2] [2] [2] [2] [2] [2] [2]).cov
      = List.replicate (⟨[1], none, [3]⟩ : LeastsqOut).p1.length
          (List.replicate (⟨[1], none, [3]⟩ : LeastsqOut).p1.length 0) :=
  cov_none_zero_fallback ⟨[1], none, [3]⟩ [1] [1] [] ⟨[1], none, [3]⟩
    [1] [2] [2] [2] [2] [2] [2] [2] rfl (by norm_num) rfl

/-- Helper: an in-range entry of the error vector, as the try/except
alternative used by the source on the doubly-indexed scaled covariance. -/
theorem errorsOf_get (covWt : List (List ℝ)) (nparams i : Nat) (hi : i < nparams) :
    (errorsOf covWt nparams).get? i
      = some (match matEntry covWt i with
          | some x => |x| ^ (0.5 : ℝ)
          | none => 0) := by
  rw [errorsOf, List.get?_map, List.get?_range hi]; rfl

/-- C9: with zero degrees of freedom (sample length equal to the number of
guesses, so the reduced-variance denominator is zero) the error-computation
stage still completes: the power-law `fit_model` returns a full result and
every entry of the error vector is a defined numeric value, and likewise for
the NPL `fit_model`.  (In the source the zero denominator yields a numpy
`inf`/`nan` float, not an exception, and the `try`/`except` guards the
indexing; the real-number model makes the same stage total.) -/
theorem zero_dof_errors_defined (ls : LeastsqOut) (values guesses : List ℝ)
    (args : List (List ℝ)) (ls2 : LeastsqOut) (g2 Ip R kappa P n B v2 : List ℝ)
    (hlen : (args.length : ℤ) = (guesses.length : ℤ) - 1)
    (hdof : (args.headD []).length = guesses.length)
    (hdof2 : v2.length = g2.length) :
    (∃ res : FitResult, powerlaw.fit_model ls values guesses args = Except.ok res ∧
      res.errors.length = ls.p1.length ∧
      ∀ i, i < ls.p1.length → ∃ x : ℝ, res.errors.get? i = some x) ∧
    ((Murari.fit_model ls2 g2 Ip R kappa P n B v2).errors.length = ls2.p1.length ∧
      ∀ i, i < ls2.p1.length →
        ∃ x : ℝ, (Murari.fit_model ls2 g2 Ip R kappa P n B v2).errors.get? i = some x) := by
  refine ⟨?_, ?_, ?_⟩
  · rw [powerlaw.fit_model, if_neg (fun hne => hne hlen)]
    refine ⟨_, rfl, ?_, ?_⟩
    · show (errorsOf _ ls.p1.length).length = ls.p1.length
      rw [errorsOf, List.length_map, List.length_range]
    · intro i hi
      show ∃ x : ℝ, (errorsOf _ ls.p1.length).get? i = some x
      exact ⟨_, errorsOf_get _ _ i hi⟩
  · show (errorsOf _ ls2.p1.length).length = ls2.p1.length
    rw [errorsOf, List.length_map, List.length_range]
  · intro i hi
    show ∃ x : ℝ, (errorsOf _ ls2.p1.length).get? i = some x
    exact ⟨_, errorsOf_get _ _ i hi⟩

/-- Witness for C9: two guesses and two samples on each side
(`N = 2 = len(guesses)`, zero degrees of freedom). -/
theorem zero_dof_errors_defined_witness :
    (∃ res : FitResult,
      powerlaw.fit_model ⟨[1, 1], none, [3, 3]⟩ [3, 4] [1, 1] [[7, 8]] = Except.ok res ∧
      res.errors.length = (⟨[1, 1], none, [3, 3]⟩ : LeastsqOut).p1.length ∧
      ∀ i, i < (⟨[1, 1], none, [3, 3]⟩ : LeastsqOut).p1.length →
        ∃ x : ℝ, res.errors.get? i = some x) ∧
    ((Murari.fit_model ⟨[1, 1], none, [3, 3]⟩ [1, 1] [2] [2] [2] [2] [2] [2] [5, 6]).errors.length
        = (⟨[1, 1], none, [3, 3]⟩ : LeastsqOut).p1.length ∧
      ∀ i, i < (⟨[1, 1], none, [3, 3]⟩ : LeastsqOut).p1.length →
        ∃ x : ℝ,
          (Murari.fit_model ⟨[1, 1], none, [3, 3]⟩ [1, 1] [2] [2] [2] [2] [2] [2] [5, 6]).errors.get? i
            = some x) :=
  zero_dof_errors_defined ⟨[1, 1], none, [3, 3]⟩ [3, 4] [1, 1] [[7, 8]]
    ⟨[1, 1], none, [3, 3]⟩ [1, 1] [2] [2] [2] [2] [2] [2] [5, 6]
    (by norm_num) (by simp) (by simp)

/-- Helper: scaling every entry of the covariance matrix commutes with taking
the optional diagonal entry. -/
theorem matEntry_smul (m : List (List ℝ)) (w : ℝ) (i : Nat) :
    matEntry (m.map (List.map fun c => c * w)) i
      = (matEntry m i).map fun c => c * w := by
  rw [matEntry, matEntry, List.get?_map]
  cases m.get? i with
  | none => rfl
  | some row => simp [List.get?_map]

/-- Helper: the expression `np.absolute(x)**0.5` of the source is the square root of the
absolute value. -/
theorem abs_rpow_half (x : ℝ) : |x| ^ (0.5 : ℝ) = Real.sqrt |x| := by
  rw [Real.sqrt_eq_rpow]
  norm_num

/-- Helper: an in-range entry of the error vector built from the scaled
covariance `cov * w`, in square-root form with the `0.0` fallback. -/
theorem errorsOf_smul_get (cov : List (List ℝ)) (w : ℝ) (np i : Nat) (hi : i < np) :
    (errorsOf (cov.map (List.map fun c => c * w)) np).get? i
      = some (match matEntry cov i with
          | some c => Real.sqrt |c * w|
          | none => (0 : ℝ)) := by
  rw [errorsOf_get _ _ i hi, matEntry_smul]
  cases matEntry cov i with
  | none => rfl
  | some c =>
    show some (|c * w| ^ (0.5 : ℝ)) = _
    rw [abs_rpow_half]

/-- C4: in both `fit_model`s the reported error for parameter `i` is the
square root of the absolute value of diagonal entry `(i,i)` of the covariance
matrix scaled by the reduced residual variance `ss_err / (N - #guesses)` (`N`
the sample length: `len(args[0])` in the power-law fitter, `len(values)` in
the NPL fitter), and when that entry cannot be indexed the error for that one
parameter is `0.0` while the rest of the result is still returned. -/
theorem errors_sqrt_scaled_cov (ls : LeastsqOut) (values guesses : List ℝ)
    (args : List (List ℝ)) (ls2 : LeastsqOut) (g2 Ip R kappa P n B v2 : List ℝ)
    (i : Nat) (hi : i < ls.p1.length) (hi2 : i < ls2.p1.length) :
    ((powerlaw.fit_model ls values guesses args).map fun res => res.errors.get? i)
      = ((powerlaw.fit_model ls values guesses args).map fun _ =>
          some (match matEntry (ls.cov.getD (zeroMatrix ls.p1.length)) i with
            | some c => Real.sqrt
                |c * (ssq ls.fvec / (((args.headD []).length : ℝ) - (guesses.length : ℝ)))|
            | none => (0 : ℝ))) ∧
    (Murari.fit_model ls2 g2 Ip R kappa P n B v2).errors.get? i
      = some (match matEntry (ls2.cov.getD (zeroMatrix ls2.p1.length)) i with
          | some c => Real.sqrt |c * (ssq ls2.fvec / ((v2.length : ℝ) - (g2.length : ℝ)))|
          | none => (0 : ℝ)) := by
  constructor
  · rw [powerlaw.fit_model]
    split_ifs with h
    · rfl
    · simp only [Except.map]
      exact congrArg Except.ok (errorsOf_smul_get _ _ _ i hi)
  · exact errorsOf_smul_get _ _ _ i hi2

/-- Solver output used by the C4 witness: one parameter, covariance `[[4]]`,
final residual `[3]`. -/
def lsA : LeastsqOut := ⟨[1], some [[4]], [3]⟩

/-- Witness for C4 at parameter index `0` of a one-parameter fit. -/
theorem errors_sqrt_scaled_cov_witness :
    ((powerlaw.fit_model lsA [1] [1] []).map fun res => res.errors.get? 0)
      = ((powerlaw.fit_model lsA [1] [1] []).map fun _ =>
          some (match matEntry (lsA.cov.getD (zeroMatrix lsA.p1.length)) 0 with
            | some c => Real.sqrt
                |c * (ssq lsA.fvec /
                  (((([] : List (List ℝ)).headD []).length : ℝ) - (([1] : List ℝ).length : ℝ)))|
            | none => (0 : ℝ))) ∧
    (Murari.fit_model lsA [1] [2] [2] [2] [2] [2] [2] [5]).errors.get? 0
      = some (match matEntry (lsA.cov.getD (zeroMatrix lsA.p1.length)) 0 with
          | some c => Real.sqrt
              |c * (ssq lsA.fvec / ((([5] : List ℝ).length : ℝ) - (([1] : List ℝ).length : ℝ)))|
          | none => (0 : ℝ)) :=
  errors_sqrt_scaled_cov lsA [1] [1] [] lsA [1] [2] [2] [2] [2] [2] [2] [5] 0
    (by simp [lsA]) (by simp [lsA])

/-- C6: under the matching-arity hypothesis (`len(args) == len(params)`),
the power-law `errfunct` splits its last positional argument off as the
observed dependent-variable vector and returns the elementwise residual
`log10(ydata) - logmodel(params, *remaining_args)`. -/
theorem errfunct_splits_ydata (param : List ℝ) (xs : List (List ℝ)) (ydata : List ℝ)
    (hlen : (xs.length : ℤ) + 1 = (param.length : ℤ)) :
    powerlaw.errfunct param (xs ++ [ydata])
      = Except.ok ((List.range ydata.length).map fun j =>
          Real.logb 10 (ydata.getD j 0)
            - powerlaw.logmodelVal param (xs.map fun col => col.getD j 0)) := by
  have hne : ¬(((xs ++ [ydata]).length : ℤ) ≠ (param.length : ℤ)) := by
    simp only [List.length_append, List.length_singleton]
    omega
  rw [powerlaw.errfunct, if_neg hne, List.dropLast_concat, List.getLastD_concat]
  rfl

/-- Witness for C6 at `params = [2.0, 1.5]`, one independent-variable vector
`[10, 100]` and observations `[3, 7]`. -/
theorem errfunct_splits_ydata_witness :
    powerlaw.errfunct [2, 1.5] ([[10, 100]] ++ [[3, 7]])
      = Except.ok ((List.range ([3, 7] : List ℝ).length).map fun j =>
          Real.logb 10 (([3, 7] : List ℝ).getD j 0)
            - powerlaw.logmodelVal [2, 1.5]
                (([[10, 100]] : List (List ℝ)).map fun col => col.getD j 0)) :=
  errfunct_splits_ydata [2, 1.5] [[10, 100]] [3, 7] (by norm_num)

end Claims
